import Mathlib

/-!
# Banana Brain Blitz client — shallow embedding

A shallow embedding of the game-session state machine of the
"Banana Brain Blitz" browser client: the per-round gameplay loop of
`src/components/GamePage.tsx` (countdown timer, skip, answer submission,
power-ups, shop purchases, logout) and the session router of the top-level
`Index` component.

JavaScript numbers are modelled as `Int` where they can meaningfully be
negative or are subtracted from (coins, score, timeLeft) and as `Nat` for
counters that are only ever reset, incremented, or decremented under a
positivity guard (streak, combo, power-up inventory, hints used).
Truthiness of optional JSON fields (`x || d`) is modelled by the `jsOr`
and `jsTruthy` helpers below.  Asynchronous backend calls are recorded as
a list of `BackendCall` values emitted by each handler; their responses
enter the model as explicit parameters.  Purely presentational state
(particles, modals, celebration overlays, achievement cards) is not
modelled.
-/

namespace BananaBrain

/-- Difficulty levels selectable in the game (GamePage.tsx). -/
inductive Difficulty
  | easy
  | medium
  | hard
deriving DecidableEq

/-- `const timeLimits = { easy: 50, medium: 40, hard: 30 }` (GamePage.tsx line 172). -/
def timeLimits : Difficulty → Int
  | .easy => 50
  | .medium => 40
  | .hard => 30

/-- The power-up inventory `powerUps` state (GamePage.tsx lines 54-58). -/
structure PowerUps where
  hint : Nat
  freeze : Nat
  superBanana : Nat
deriving DecidableEq

/-- Which power-up a shop purchase targets (`powerUpType` in `buyPowerUp`). -/
inductive PowerUpType
  | hint
  | freeze
  | superBanana
deriving DecidableEq

/-- Read the inventory slot named by `t` (the `powerUps[powerUpType]` lookup). -/
def PowerUps.get (p : PowerUps) : PowerUpType → Nat
  | .hint => p.hint
  | .freeze => p.freeze
  | .superBanana => p.superBanana

/-- Write the inventory slot named by `t` (the computed-key spread
`{ ...prev, [powerUpType]: newPowerUpCount }`). -/
def PowerUps.set (p : PowerUps) : PowerUpType → Nat → PowerUps
  | .hint, n => { p with hint := n }
  | .freeze, n => { p with freeze := n }
  | .superBanana, n => { p with superBanana := n }

/-- The local game-screen state of `GamePage` that the gameplay handlers read
and write.  Fields that are purely presentational (particles, overlay and
modal visibility flags, achievement card data, background decorations) are
omitted; no modelled handler branches on them. -/
structure GameState where
  /-- `puzzle` — `null` before the first fetch; we keep the image URL
  (`puzzle.question`), the only part the handlers use. -/
  puzzle : Option String
  userAnswer : String
  score : Int
  streak : Nat
  timeLeft : Int
  loading : Bool
  coins : Int
  powerUps : PowerUps
  /-- `puzzleStartTime` — a `Date.now()` millisecond stamp, `0` before the
  first puzzle arrives. -/
  puzzleStartTime : Nat
  isTimerFrozen : Bool
  level : Nat
  xp : Int
  xpNeeded : Int
  difficulty : Difficulty
  combo : Nat
  hintsUsedThisPuzzle : Nat
  doublePointsActive : Bool
deriving DecidableEq

/-- JavaScript `x || d` on an optional number: `undefined` and `0` are falsy. -/
def jsOrI : Option Int → Int → Int
  | some x, d => if x = 0 then d else x
  | none, d => d

/-- JavaScript `x || d` on an optional non-negative number. -/
def jsOrN : Option Nat → Nat → Nat
  | some x, d => if x = 0 then d else x
  | none, d => d

/-- JavaScript `x || d` on an optional string: `undefined`, `null` and the
empty string are falsy. -/
def jsOrS : Option String → String → String
  | some x, d => if x = "" then d else x
  | none, d => d

/-- JavaScript truthiness of an optional string. -/
def jsTruthyS : Option String → Bool
  | some x => x != ""
  | none => false

/-- JavaScript truthiness of an optional number. -/
def jsTruthyI : Option Int → Bool
  | some x => x != 0
  | none => false

/-- JavaScript truthiness of an optional non-negative number. -/
def jsTruthyN : Option Nat → Bool
  | some x => x != 0
  | none => false

/-- JavaScript truthiness of an optional boolean. -/
def jsTruthyB : Option Bool → Bool
  | some b => b
  | none => false

/-- The body `PATCH /banana/player/` receives from `updatePlayerData`:
only the keys present in the handler's `updates` object. -/
structure PlayerPatch where
  coins : Option Int := none
  hints : Option Nat := none
  freezes : Option Nat := none
  super_bananas : Option Nat := none
deriving DecidableEq

/-- The two remote logout variants (`LogoutEndpoint` in `@/lib/auth`). -/
inductive LogoutEndpoint
  | logout
  | logoutAll
deriving DecidableEq

/-- A backend HTTP call issued by a gameplay handler.  Handlers emit the
calls they trigger; responses are fed back in as explicit arguments. -/
inductive BackendCall
  /-- `GET /banana/puzzle/` from `fetchPuzzle`. -/
  | fetchPuzzle
  /-- `POST /banana/check-puzzle/` with body
  `{ answer, puzzle_url, time_taken, hints_used }` (handleSubmit). -/
  | checkPuzzle (answer : String) (puzzleUrl : String) (timeTaken : Nat) (hintsUsed : Nat)
  /-- `PATCH /banana/player/` from `updatePlayerData`. -/
  | patchPlayer (body : PlayerPatch)
  /-- `GET /banana/game-stats/` from `fetchGameStats`. -/
  | fetchGameStats
  /-- `POST /banana/use-hint/` from `useHint`. -/
  | useHintCall
  /-- `POST /logout/` or `POST /logout-all/` via `invokeLogoutEndpoint`. -/
  | logoutCall (endpoint : LogoutEndpoint)
deriving DecidableEq

/-- One `toast(...)` notification: its title and description strings. -/
structure Toast where
  title : String
  description : String
deriving DecidableEq

/-- The result of running one handler: the updated component state, the
backend calls it issued, and the toasts it showed. -/
structure Emit where
  state : GameState
  calls : List BackendCall
  toasts : List Toast
deriving DecidableEq

/-- A handler invocation whose guard failed: nothing happens. -/
def noEmit (s : GameState) : Emit :=
  { state := s, calls := [], toasts := [] }

/-- The synchronous prefix of `fetchPuzzle` (GamePage.tsx lines 158-162):
before awaiting the network it sets `loading`, unfreezes the timer, clears
the pending answer, and resets the per-puzzle hint counter. -/
def fetchPuzzleStart (s : GameState) : GameState :=
  { s with loading := true, isTimerFrozen := false, userAnswer := "",
           hintsUsedThisPuzzle := 0 }

/-- The success continuation of `fetchPuzzle` (lines 169-180): stores the
puzzle, restarts the countdown at the difficulty-selected limit, stamps the
start time, and clears `loading`.  `now` is the `Date.now()` value and `q`
the fetched image URL. -/
def fetchPuzzleSuccess (now : Nat) (q : String) (s : GameState) : GameState :=
  { s with puzzle := some q, timeLeft := timeLimits s.difficulty,
           puzzleStartTime := now, loading := false }

/-- `handleSkip` (GamePage.tsx lines 542-546): reset the streak, toast, and
start a new puzzle fetch.  The synchronous prefix of `fetchPuzzle` is folded
into the emitted state; its completion is a separate event
(`fetchPuzzleSuccess`). -/
def handleSkip (s : GameState) : Emit :=
  { state := fetchPuzzleStart { s with streak := 0 },
    calls := [.fetchPuzzle],
    toasts := [{ title := "⏭️ Skipped", description := "Streak reset. New puzzle loaded!" }] }

/-- One evaluation of the countdown effect (GamePage.tsx lines 250-262),
with a skip-initiated puzzle fetch taken to completion: if the clock has
expired the effect runs `handleSkip` (whose fetch, on success, restarts the
clock); if the timer is frozen nothing is scheduled; otherwise the 1-second
interval fires and decrements `timeLeft` by one. -/
def timerStep (now : Nat) (q : String) (s : GameState) : GameState × List BackendCall :=
  if s.timeLeft ≤ 0 then
    let e := handleSkip s
    (fetchPuzzleSuccess now q e.state, e.calls)
  else if s.isTimerFrozen then (s, [])
  else ({ s with timeLeft := s.timeLeft - 1 }, [])

/-- Iterate the countdown effect `n` times. -/
def iterTimer (now : Nat) (q : String) : Nat → GameState → GameState
  | 0, s => s
  | n + 1, s => iterTimer now q n (timerStep now q s).1

/-- `useFreeze` (GamePage.tsx lines 349-366): guarded by
`powerUps.freeze > 0 && !isTimerFrozen`; decrements the freeze count,
pushes it to the backend, freezes the timer, and schedules a 100 ms timeout
(modelled separately as `freezeTimeoutFire`).  The toast reports a
+10-second bonus. -/
def useFreeze (s : GameState) : Emit :=
  if s.powerUps.freeze > 0 && !s.isTimerFrozen then
    let newFreezeCount := s.powerUps.freeze - 1
    { state := { s with powerUps := { s.powerUps with freeze := newFreezeCount },
                        isTimerFrozen := true },
      calls := [.patchPlayer { freezes := some newFreezeCount }],
      toasts := [{ title := "🧊 Time Frozen!", description := "+10 seconds added to timer!" }] }
  else noEmit s

/-- The body of the 100 ms timeout scheduled by `useFreeze`
(GamePage.tsx lines 356-359): add 20 seconds and unfreeze. -/
def freezeTimeoutFire (s : GameState) : GameState :=
  { s with timeLeft := s.timeLeft + 20, isTimerFrozen := false }

/-- `useSuperBanana` (GamePage.tsx lines 368-382): guarded by
`powerUps.superBanana > 0`; decrements the count, pushes it to the backend,
and arms the one-shot double-points flag. -/
def useSuperBanana (s : GameState) : Emit :=
  if s.powerUps.superBanana > 0 then
    let newSuperBananaCount := s.powerUps.superBanana - 1
    { state := { s with powerUps := { s.powerUps with superBanana := newSuperBananaCount },
                        doublePointsActive := true },
      calls := [.patchPlayer { super_bananas := some newSuperBananaCount }],
      toasts := [{ title := "🍌✨ Super Banana Activated!",
                   description := "Your next correct answer will earn DOUBLE POINTS!" }] }
  else noEmit s

/-- The `updates` body `buyPowerUp` pushes: the new coin total together with
the backend field name for the purchased power-up. -/
def buyPatch (t : PowerUpType) (newCoinTotal : Int) (newPowerUpCount : Nat) : PlayerPatch :=
  match t with
  | .hint => { coins := some newCoinTotal, hints := some newPowerUpCount }
  | .freeze => { coins := some newCoinTotal, freezes := some newPowerUpCount }
  | .superBanana => { coins := some newCoinTotal, super_bananas := some newPowerUpCount }

/-- `buyPowerUp` (GamePage.tsx lines 384-403): guarded by `coins >= cost`;
deducts the cost, increments the chosen power-up, and pushes both new values
to the backend in one `PATCH`.  An unaffordable attempt falls through the
guard and does nothing. -/
def buyPowerUp (s : GameState) (t : PowerUpType) (cost : Int) : Emit :=
  if s.coins ≥ cost then
    let newCoinTotal := s.coins - cost
    let newPowerUpCount := s.powerUps.get t + 1
    { state := { s with coins := newCoinTotal, powerUps := s.powerUps.set t newPowerUpCount },
      calls := [.patchPlayer (buyPatch t newCoinTotal newPowerUpCount)],
      toasts := [{ title := "Purchase Complete!", description := "Bought 1 power-up" }] }
  else noEmit s

/-- The JSON body returned by `POST /banana/check-puzzle/`, with every field
the `handleSubmit` handler reads.  Absent fields are `none`. -/
structure CheckResponse where
  correct : Bool
  points : Option Int := none
  combo : Option Nat := none
  xp_gained : Option Int := none
  leveled_up : Option Bool := none
  new_level : Option Nat := none
  correct_answer : Option String := none
deriving DecidableEq

/-- The value `checkAnswer` resolves to when the fetch throws
(GamePage.tsx line 430): `{ correct: false, error: "Network error" }`. -/
def networkErrorResult : CheckResponse :=
  { correct := false }

/-- The value the inner `checkAnswer` closure resolves to: the parsed
response body on success, or `networkErrorResult` when the fetch throws
(`net = none`). -/
def checkAnswerResolve : Option CheckResponse → CheckResponse
  | some r => r
  | none => networkErrorResult

/-- `time_taken` as computed in `handleSubmit` (line 409):
`puzzleStartTime > 0 ? floor((Date.now() - puzzleStartTime) / 1000) : 0`. -/
def timeTakenOf (now : Nat) (s : GameState) : Nat :=
  if s.puzzleStartTime > 0 then (now - s.puzzleStartTime) / 1000 else 0

/-- `handleSubmit` (GamePage.tsx lines 405-540).  `now` is the `Date.now()`
stamp at submission; `net` is the verification call's JSON body, or `none`
when the fetch throws (in which case `checkAnswer` substitutes
`networkErrorResult`).  The delayed `fetchPuzzle` / `fetchGameStats` of both
outcome branches are recorded as emitted calls; their state effects are
separate events.  The decorative per-field breakdown suffixes of the success
toast are not reproduced. -/
def handleSubmit (now : Nat) (s : GameState) (net : Option CheckResponse) : Emit :=
  if s.puzzle.isNone ∨ s.userAnswer = "" then noEmit s
  else
    let result := checkAnswerResolve net
    let checkCall := BackendCall.checkPuzzle s.userAnswer (jsOrS s.puzzle "")
      (timeTakenOf now s) s.hintsUsedThisPuzzle
    if result.correct then
      let basePoints := jsOrI result.points 10
      let points := if s.doublePointsActive then basePoints * 2 else basePoints
      let earnedCoins : Int := (5 + jsOrN result.combo 0 / 2 : Nat)
      let newScore := s.score + points
      let newCoins := s.coins + earnedCoins
      let newStreak := s.streak + 1
      let s1 : GameState :=
        { s with score := newScore, coins := newCoins, streak := newStreak,
                 combo := jsOrN result.combo 0,
                 doublePointsActive := if s.doublePointsActive then false else s.doublePointsActive,
                 xp := if jsTruthyI result.xp_gained then s.xp + result.xp_gained.getD 0 else s.xp }
      let s2 : GameState :=
        if jsTruthyB result.leveled_up && jsTruthyN result.new_level then
          { s1 with level := result.new_level.getD 0, xpNeeded := 100 }
        else s1
      { state := s2,
        calls := [checkCall, .patchPlayer { coins := some newCoins }, .fetchPuzzle, .fetchGameStats],
        toasts :=
          (if s.doublePointsActive then
            [{ title := "🎊 Double Points!", description := "Super Banana bonus applied!" }]
          else [])
          ++ (if jsTruthyB result.leveled_up && jsTruthyN result.new_level then
            [{ title := "🎊 Level Up!", description := "You reached a new level!" }]
          else [])
          ++ [{ title := "🎉 Correct!",
                description := "+" ++ toString points ++ " points & " ++ toString earnedCoins ++ " coins!" }] }
    else
      { state := { s with streak := 0, combo := 0 },
        calls := [checkCall, .fetchPuzzle, .fetchGameStats],
        toasts := [{ title := "❌ Incorrect",
                     description := "The correct answer was " ++ jsOrS result.correct_answer "unknown"
                       ++ ". Streak reset!" }] }

/-! ## Session router (`Index` component) -/

/-- The top-level view of the `Index` router. -/
inductive ViewState
  | landing
  | auth
  | playing
  | leaderboard
  | contact
  | ratings
  | reviews
deriving DecidableEq

/-- Which tab the auth screen opens on. -/
inductive AuthTab
  | login
  | register
deriving DecidableEq

/-- The `Index` component's state. -/
structure RouterState where
  view : ViewState
  authTab : AuthTab
  username : String
  finalScore : Int
deriving DecidableEq

/-- Initial router state: `view = landing`, `authTab = login`,
`username = ""`, `finalScore = 0`. -/
def routerInit : RouterState :=
  { view := .landing, authTab := .login, username := "", finalScore := 0 }

/-- The persisted `localStorage` keys the client reads at startup and on
logout.  `none` models an absent key. -/
structure Storage where
  bananaUser : Option String
  accessToken : Option String
  refreshToken : Option String
deriving DecidableEq

/-- The startup effect of `Index` (its first `useEffect`): if a remembered
username is present it is adopted, and if additionally an access or refresh
token is present the view jumps straight to `playing`; otherwise the router
stays at `landing`. -/
def startupCheck (st : Storage) (r : RouterState) : RouterState :=
  if jsTruthyS st.bananaUser then
    let r1 := { r with username := jsOrS st.bananaUser "" }
    if jsTruthyS st.accessToken || jsTruthyS st.refreshToken then
      { r1 with view := .playing }
    else r1
  else r

/-- Modelled from the spec: the body of `clearStoredSession` from
`@/lib/auth` is not among the sources (only its call sites are).  The spec
says logout "clears session identity and persisted credentials" and that
local teardown "always clears persisted credentials", so it removes the
remembered username and both bearer credentials from persisted storage. -/
def clearStoredSession (st : Storage) : Storage :=
  { st with bananaUser := none, accessToken := none, refreshToken := none }

/-- `handleLogout` of `Index`: clear the persisted session, blank the
username, and return to the landing view. -/
def handleLogout (st : Storage) (r : RouterState) : Storage × RouterState :=
  (clearStoredSession st, { r with username := "", view := .landing })

/-- The possible outcomes of the awaited `invokeLogoutEndpoint` call, as
`handleLogoutRequest` discriminates them: a response with `ok = true` and an
optional message, a response with `ok = false` and an optional message, or a
thrown/rejected promise. -/
inductive LogoutOutcome
  | ok (message : Option String)
  | httpError (message : Option String)
  | thrown
deriving DecidableEq

/-- The toasts `handleLogoutRequest` shows for each remote outcome
(GamePage.tsx lines 108-123); a thrown call or a falsy error message shows
nothing. -/
def logoutToasts (endpoint : LogoutEndpoint) : LogoutOutcome → List Toast
  | .ok msg =>
      [{ title := if endpoint = .logoutAll then "Signed out everywhere" else "Signed out",
         description := jsOrS msg
           (if endpoint = .logoutAll then "You have been logged out on all devices."
            else "You have been logged out on this device.") }]
  | .httpError msg =>
      if jsTruthyS msg then [{ title := "Logout error", description := jsOrS msg "" }]
      else []
  | .thrown => []

/-- `handleLogoutRequest` (GamePage.tsx lines 100-131): re-entry is blocked
by the `isLoggingOut` flag; otherwise the remote outcome only selects the
toast, and the `finally` block unconditionally runs `clearStoredSession`
and the router's `onLogout` callback (`handleLogout`). -/
def handleLogoutRequest (busy : Bool) (endpoint : LogoutEndpoint)
    (outcome : LogoutOutcome) (st : Storage) (r : RouterState) :
    Storage × RouterState × List Toast :=
  if busy then (st, r, [])
  else
    let toasts := logoutToasts endpoint outcome
    let p := handleLogout (clearStoredSession st) r
    (p.1, p.2, toasts)

/-! ## Concrete sample data (used by witnesses and counterexamples) -/

/-- A mid-round game state: an active puzzle, a pending answer, 12 seconds
on an unfrozen clock, some coins and inventory, and a running combo of 3. -/
def sampleState : GameState :=
  { puzzle := some "https://banana.example/p1.png"
    userAnswer := "7"
    score := 30
    streak := 2
    timeLeft := 12
    loading := false
    coins := 40
    powerUps := { hint := 2, freeze := 1, superBanana := 1 }
    puzzleStartTime := 1000
    isTimerFrozen := false
    level := 2
    xp := 50
    xpNeeded := 100
    difficulty := .medium
    combo := 3
    hintsUsedThisPuzzle := 0
    doublePointsActive := false }

/-- `sampleState` at the moment the countdown reaches zero. -/
def expiredState : GameState :=
  { sampleState with timeLeft := 0 }

/-- `sampleState` with the Super Banana double-points flag armed. -/
def armedState : GameState :=
  { sampleState with doublePointsActive := true }

/-- `sampleState` while the freeze power-up is in effect. -/
def frozenState : GameState :=
  { sampleState with isTimerFrozen := true }

/-- A correct verdict from the verification endpoint reporting 15 points
and a combo of 3. -/
def sampleCorrect : CheckResponse :=
  { correct := true, points := some 15, combo := some 3 }

/-- An incorrect verdict carrying the backend-supplied correct answer. -/
def sampleWrong : CheckResponse :=
  { correct := false, correct_answer := some "4" }

/-- Persisted storage with a remembered username and an access token. -/
def sampleStorage : Storage :=
  { bananaUser := some "alice", accessToken := some "tokA", refreshToken := none }

/-- Persisted storage with a remembered username but no credentials. -/
def sampleStorageNoTok : Storage :=
  { bananaUser := some "alice", accessToken := none, refreshToken := none }

/-- Persisted storage with a credential but no remembered username. -/
def sampleStorageNoUser : Storage :=
  { bananaUser := none, accessToken := some "tokA", refreshToken := none }

/-! ## Helper lemmas -/

/-- Every difficulty's time limit is positive. -/
lemma timeLimits_pos (d : Difficulty) : 0 < timeLimits d := by
  cases d <;> decide

/-- One evaluation of the countdown effect never drives `timeLeft`
negative. -/
lemma timerStep_nonneg (now : Nat) (q : String) (s : GameState)
    (h : 0 ≤ s.timeLeft) : 0 ≤ (timerStep now q s).1.timeLeft := by
  unfold timerStep
  by_cases h1 : s.timeLeft ≤ 0
  · rw [if_pos h1]
    exact le_of_lt (timeLimits_pos _)
  · rw [if_neg h1]
    by_cases h2 : s.isTimerFrozen = true
    · rw [if_pos h2]
      exact h
    · rw [if_neg h2]
      show 0 ≤ s.timeLeft - 1
      omega

/-- Iterating the countdown effect never drives `timeLeft` negative. -/
lemma iterTimer_nonneg (now : Nat) (q : String) (n : Nat) (s : GameState)
    (h : 0 ≤ s.timeLeft) : 0 ≤ (iterTimer now q n s).timeLeft := by
  induction n generalizing s with
  | zero => exact h
  | succ m ih => exact ih _ (timerStep_nonneg now q s h)

/-- On a correct verdict the submit handler's state and calls, field by
field (GamePage.tsx lines 436-504). -/
lemma handleSubmit_correct_fields (now : Nat) (s : GameState) (r : CheckResponse)
    (hp : s.puzzle.isNone = false) (ha : ¬ s.userAnswer = "")
    (hc : r.correct = true) :
    (handleSubmit now s (some r)).state.score
        = s.score + (if s.doublePointsActive then jsOrI r.points 10 * 2 else jsOrI r.points 10)
    ∧ (handleSubmit now s (some r)).state.coins
        = s.coins + ((5 + jsOrN r.combo 0 / 2 : Nat) : Int)
    ∧ (handleSubmit now s (some r)).state.streak = s.streak + 1
    ∧ (handleSubmit now s (some r)).state.combo = jsOrN r.combo 0
    ∧ (handleSubmit now s (some r)).state.doublePointsActive = false
    ∧ (handleSubmit now s (some r)).state.puzzle = s.puzzle
    ∧ (handleSubmit now s (some r)).state.userAnswer = s.userAnswer
    ∧ (handleSubmit now s (some r)).calls
        = [BackendCall.checkPuzzle s.userAnswer (jsOrS s.puzzle "") (timeTakenOf now s) s.hintsUsedThisPuzzle,
           BackendCall.patchPlayer { coins := some (s.coins + ((5 + jsOrN r.combo 0 / 2 : Nat) : Int)) },
           BackendCall.fetchPuzzle, BackendCall.fetchGameStats] := by
  by_cases hd : s.doublePointsActive = true <;>
    by_cases hl : (jsTruthyB r.leveled_up && jsTruthyN r.new_level) = true <;>
      simp [handleSubmit, checkAnswerResolve, hp, ha, hc, hd, hl]

/-- When the resolved verdict is not correct (an explicit incorrect verdict
or the network-error substitute), the submit handler resets streak and
combo and schedules only the follow-up fetches. -/
lemma handleSubmit_incorrect_fields (now : Nat) (s : GameState)
    (net : Option CheckResponse)
    (hp : s.puzzle.isNone = false) (ha : ¬ s.userAnswer = "")
    (hc : (checkAnswerResolve net).correct = false) :
    (handleSubmit now s net).state = { s with streak := 0, combo := 0 }
    ∧ (handleSubmit now s net).calls
        = [BackendCall.checkPuzzle s.userAnswer (jsOrS s.puzzle "") (timeTakenOf now s) s.hintsUsedThisPuzzle,
           BackendCall.fetchPuzzle, BackendCall.fetchGameStats] := by
  simp [handleSubmit, hp, ha, hc]

/-! ## Claim theorems -/

/-- C1: Countdown invariant.  While the timer is running (`timeLeft > 0`)
and `isTimerFrozen` is false, each evaluation of the countdown effect
decrements `timeLeft` by exactly 1 and triggers no skip.  When `timeLeft`
reaches 0, exactly one skip fires: the streak is reset, one puzzle fetch is
issued, the restarted clock is positive, and the immediately following
evaluation fires no second skip.  Along any sequence of evaluations,
`timeLeft` never goes negative. -/
theorem countdown_invariant (now : Nat) (q : String) (s : GameState) :
    (s.isTimerFrozen = false → 0 < s.timeLeft →
      (timerStep now q s).1.timeLeft = s.timeLeft - 1 ∧ (timerStep now q s).2 = [])
    ∧ (s.timeLeft = 0 →
      (timerStep now q s).2 = [BackendCall.fetchPuzzle]
      ∧ (timerStep now q s).1.streak = 0
      ∧ 0 < (timerStep now q s).1.timeLeft
      ∧ (timerStep now q (timerStep now q s).1).2 = [])
    ∧ (0 ≤ s.timeLeft → ∀ n, 0 ≤ (iterTimer now q n s).timeLeft) := by
  refine ⟨?_, ?_, ?_⟩
  · intro hf hpos
    have h1 : ¬ s.timeLeft ≤ 0 := by omega
    have hf2 : ¬ s.isTimerFrozen = true := by
      rw [hf]
      exact Bool.false_ne_true
    unfold timerStep
    rw [if_neg h1, if_neg hf2]
    exact ⟨rfl, rfl⟩
  · intro h0
    have h1 : s.timeLeft ≤ 0 := le_of_eq h0
    have hstep : timerStep now q s
        = (fetchPuzzleSuccess now q (handleSkip s).state, [BackendCall.fetchPuzzle]) := by
      unfold timerStep
      rw [if_pos h1]
      rfl
    have hpos2 : ¬ (fetchPuzzleSuccess now q (handleSkip s).state).timeLeft ≤ 0 := by
      show ¬ timeLimits s.difficulty ≤ 0
      have := timeLimits_pos s.difficulty
      omega
    have hfroz2 : ¬ (fetchPuzzleSuccess now q (handleSkip s).state).isTimerFrozen = true := by
      show ¬ false = true
      exact Bool.false_ne_true
    refine ⟨by rw [hstep], ?_, ?_, ?_⟩
    · rw [hstep]
      rfl
    · rw [hstep]
      show 0 < timeLimits s.difficulty
      exact timeLimits_pos s.difficulty
    · rw [hstep]
      show (timerStep now q (fetchPuzzleSuccess now q (handleSkip s).state)).2 = []
      unfold timerStep
      rw [if_neg hpos2, if_neg hfroz2]
  · intro hnn n
    exact iterTimer_nonneg now q n s hnn

/-- C1 witness: on the concrete mid-round state a tick decrements the clock
from 12 to 11, and on the expired state exactly one skip-driven fetch fires
while the clock stays non-negative over further evaluations. -/
theorem countdown_invariant_witness :
    sampleState.isTimerFrozen = false ∧ 0 < sampleState.timeLeft
    ∧ (timerStep 5000 "img" sampleState).1.timeLeft = sampleState.timeLeft - 1
    ∧ expiredState.timeLeft = 0
    ∧ (timerStep 5000 "img" expiredState).2 = [BackendCall.fetchPuzzle]
    ∧ 0 ≤ (iterTimer 5000 "img" 7 expiredState).timeLeft := by
  refine ⟨rfl, by decide, ?_, rfl, ?_, ?_⟩
  · exact ((countdown_invariant 5000 "img" sampleState).1 rfl (by decide)).1
  · exact ((countdown_invariant 5000 "img" expiredState).2.1 rfl).1
  · exact (countdown_invariant 5000 "img" expiredState).2.2 (by decide) 7

/-- C2 counterexample: `handleSkip` does not touch the combo counter.
Skipping from the concrete state whose combo is 3 leaves the combo at 3,
refuting the claim that every skip resets the local combo counter to 0. -/
theorem skip_combo_counterexample :
    (handleSkip sampleState).state.combo = 3 ∧ (3 : Nat) ≠ 0 := by
  exact ⟨rfl, by decide⟩

/-- C2 (amended): for every skip event, whether from the explicit Skip
action or from the timer reaching zero, the local streak counter is reset
to 0 while the local combo counter is left unchanged; exactly one new
puzzle fetch is triggered and the remote answer-verification endpoint is
not called. -/
theorem skip_resets_streak_not_combo (now : Nat) (q : String) (s : GameState) :
    ((handleSkip s).state.streak = 0
      ∧ (handleSkip s).state.combo = s.combo
      ∧ (handleSkip s).calls = [BackendCall.fetchPuzzle]
      ∧ (∀ a u t h, BackendCall.checkPuzzle a u t h ∉ (handleSkip s).calls))
    ∧ (s.timeLeft ≤ 0 →
      (timerStep now q s).1.streak = 0
      ∧ (timerStep now q s).1.combo = s.combo
      ∧ (timerStep now q s).2 = [BackendCall.fetchPuzzle]
      ∧ (∀ a u t h, BackendCall.checkPuzzle a u t h ∉ (timerStep now q s).2)) := by
  refine ⟨⟨rfl, rfl, rfl, ?_⟩, ?_⟩
  · intro a u t h
    simp [handleSkip]
  · intro h1
    have hstep : timerStep now q s
        = (fetchPuzzleSuccess now q (handleSkip s).state, [BackendCall.fetchPuzzle]) := by
      unfold timerStep
      rw [if_pos h1]
      rfl
    refine ⟨by rw [hstep]; rfl, by rw [hstep]; rfl, by rw [hstep], ?_⟩
    intro a u t h
    rw [hstep]
    simp

/-- C2 witness: the amended statement at the concrete mid-round state and
at the expired state. -/
theorem skip_resets_streak_not_combo_witness :
    (handleSkip sampleState).state.streak = 0
    ∧ (handleSkip sampleState).state.combo = sampleState.combo
    ∧ expiredState.timeLeft ≤ 0
    ∧ (timerStep 5000 "img2" expiredState).2 = [BackendCall.fetchPuzzle] := by
  refine ⟨?_, ?_, by decide, ?_⟩
  · exact (skip_resets_streak_not_combo 5000 "img2" sampleState).1.1
  · exact (skip_resets_streak_not_combo 5000 "img2" sampleState).1.2.1
  · exact ((skip_resets_streak_not_combo 5000 "img2" expiredState).2 (by decide)).2.2.1

/-- C3: Session startup routing.  If persisted storage holds a (truthy)
remembered username and a truthy access or refresh credential, the router
starts at the playing view with the username adopted; with only a username
it stays at landing with the username pre-filled; with no username it
stays at landing with no username set (the initial state is unchanged). -/
theorem startup_routing (st : Storage) :
    (jsTruthyS st.bananaUser = true →
      ((jsTruthyS st.accessToken || jsTruthyS st.refreshToken) = true →
        (startupCheck st routerInit).view = ViewState.playing
        ∧ (startupCheck st routerInit).username = jsOrS st.bananaUser "")
      ∧ ((jsTruthyS st.accessToken || jsTruthyS st.refreshToken) = false →
        (startupCheck st routerInit).view = ViewState.landing
        ∧ (startupCheck st routerInit).username = jsOrS st.bananaUser ""))
    ∧ (jsTruthyS st.bananaUser = false →
      startupCheck st routerInit = routerInit) := by
  constructor
  · intro hu
    constructor
    · intro htok
      unfold startupCheck
      rw [if_pos hu, if_pos htok]
      exact ⟨rfl, rfl⟩
    · intro htok
      unfold startupCheck
      rw [if_pos hu, if_neg (by rw [htok]; exact Bool.false_ne_true)]
      exact ⟨rfl, rfl⟩
  · intro hu
    unfold startupCheck
    rw [if_neg (by rw [hu]; exact Bool.false_ne_true)]

/-- C3 witness: with username and token the router starts playing; with
username only it stays at landing pre-filled; with no username it is the
unchanged initial state. -/
theorem startup_routing_witness :
    jsTruthyS sampleStorage.bananaUser = true
    ∧ (startupCheck sampleStorage routerInit).view = ViewState.playing
    ∧ (startupCheck sampleStorage routerInit).username = "alice"
    ∧ (startupCheck sampleStorageNoTok routerInit).view = ViewState.landing
    ∧ (startupCheck sampleStorageNoTok routerInit).username = "alice"
    ∧ startupCheck sampleStorageNoUser routerInit = routerInit := by
  refine ⟨rfl, ?_, ?_, ?_, ?_, ?_⟩
  · exact (((startup_routing sampleStorage).1 rfl).1 rfl).1
  · exact (((startup_routing sampleStorage).1 rfl).1 rfl).2
  · exact (((startup_routing sampleStorageNoTok).1 rfl).2 rfl).1
  · exact (((startup_routing sampleStorageNoTok).1 rfl).2 rfl).2
  · exact (startup_routing sampleStorageNoUser).2 rfl

/-- C4: Power-up spend guard.  An unaffordable purchase attempt
(`coins < cost`) is a complete no-op: state unchanged, no backend call, no
toast.  An affordable one deducts exactly `cost` coins, increments exactly
the chosen power-up count by 1 leaving the others unchanged, and pushes
both new values to the backend in a single `PATCH`. -/
theorem powerup_spend_guard (s : GameState) (t : PowerUpType) (cost : Int) :
    (s.coins < cost → buyPowerUp s t cost = noEmit s)
    ∧ (cost ≤ s.coins →
      (buyPowerUp s t cost).state.coins = s.coins - cost
      ∧ (buyPowerUp s t cost).state.powerUps.get t = s.powerUps.get t + 1
      ∧ (∀ t2, t2 ≠ t → (buyPowerUp s t cost).state.powerUps.get t2 = s.powerUps.get t2)
      ∧ (buyPowerUp s t cost).calls
          = [BackendCall.patchPlayer (buyPatch t (s.coins - cost) (s.powerUps.get t + 1))]) := by
  constructor
  · intro h
    unfold buyPowerUp
    rw [if_neg (not_le.mpr h)]
  · intro h
    have hb : buyPowerUp s t cost
        = { state := { s with coins := s.coins - cost,
                              powerUps := s.powerUps.set t (s.powerUps.get t + 1) },
            calls := [BackendCall.patchPlayer (buyPatch t (s.coins - cost) (s.powerUps.get t + 1))],
            toasts := [{ title := "Purchase Complete!", description := "Bought 1 power-up" }] } := by
      unfold buyPowerUp
      rw [if_pos h]
    refine ⟨by rw [hb], ?_, ?_, by rw [hb]⟩
    · rw [hb]
      cases t <;> rfl
    · intro t2 hne
      rw [hb]
      cases t <;> cases t2 <;> first | rfl | exact absurd rfl hne

/-- C4 witness: with 40 coins, buying a 10-coin hint leaves 30 coins and
one more hint; with 5 coins the same attempt is a no-op. -/
theorem powerup_spend_guard_witness :
    (buyPowerUp sampleState PowerUpType.hint 10).state.coins = sampleState.coins - 10
    ∧ (buyPowerUp sampleState PowerUpType.hint 10).state.powerUps.get PowerUpType.hint
        = sampleState.powerUps.get PowerUpType.hint + 1
    ∧ buyPowerUp { sampleState with coins := 5 } PowerUpType.hint 10
        = noEmit { sampleState with coins := 5 } := by
  refine ⟨?_, ?_, ?_⟩
  · exact ((powerup_spend_guard sampleState PowerUpType.hint 10).2 (by decide)).1
  · exact ((powerup_spend_guard sampleState PowerUpType.hint 10).2 (by decide)).2.1
  · exact (powerup_spend_guard { sampleState with coins := 5 } PowerUpType.hint 10).1 (by decide)

/-- While the timer is already frozen, `useFreeze` is a complete no-op
(its guard `powerUps.freeze > 0 && !isTimerFrozen` fails). -/
lemma useFreeze_frozen_noop (s : GameState) (hf : s.isTimerFrozen = true) :
    useFreeze s = noEmit s := by
  unfold useFreeze
  rw [if_neg (by rw [hf]; simp)]

/-- C5: Double-points consumption.  With the Super Banana flag armed, the
next correct-answer resolution awards double the (defaulted) server
points and clears the flag in the same resolution; a second correct answer
resolved from that state is not doubled; an incorrect verdict leaves the
flag as it was, and so does a skip. -/
theorem double_points_consumption (now now2 : Nat) (s : GameState)
    (r1 r2 : CheckResponse)
    (hp : s.puzzle.isNone = false) (ha : ¬ s.userAnswer = "")
    (harm : s.doublePointsActive = true)
    (h1 : r1.correct = true) (h2 : r2.correct = true) :
    ((handleSubmit now s (some r1)).state.score = s.score + jsOrI r1.points 10 * 2
      ∧ (handleSubmit now s (some r1)).state.doublePointsActive = false)
    ∧ (handleSubmit now2 (handleSubmit now s (some r1)).state (some r2)).state.score
        = (handleSubmit now s (some r1)).state.score + jsOrI r2.points 10
    ∧ (∀ s2 : GameState, ∀ r3 : CheckResponse, r3.correct = false →
        (handleSubmit now s2 (some r3)).state.doublePointsActive = s2.doublePointsActive)
    ∧ (∀ s2 : GameState, (handleSkip s2).state.doublePointsActive = s2.doublePointsActive) := by
  obtain ⟨hsc, hco, hst, hcb, hdp, hpz, hua, hcl⟩ :=
    handleSubmit_correct_fields now s r1 hp ha h1
  have hp2 : (handleSubmit now s (some r1)).state.puzzle.isNone = false := by
    rw [hpz]
    exact hp
  have ha2 : ¬ (handleSubmit now s (some r1)).state.userAnswer = "" := by
    rw [hua]
    exact ha
  obtain ⟨hsc2, _, _, _, _, _, _, _⟩ :=
    handleSubmit_correct_fields now2 (handleSubmit now s (some r1)).state r2 hp2 ha2 h2
  refine ⟨⟨?_, hdp⟩, ?_, ?_, ?_⟩
  · rw [hsc, harm]
    rfl
  · rw [hsc2, hdp]
    rfl
  · intro s2 r3 h3
    by_cases hg : s2.puzzle.isNone = true ∨ s2.userAnswer = ""
    · unfold handleSubmit
      rw [if_pos hg]
      rfl
    · have hg1 : s2.puzzle.isNone = false := by
        rcases Bool.eq_false_or_eq_true s2.puzzle.isNone with h | h
        · exact absurd (Or.inl h) hg
        · exact h
      have hg2 : ¬ s2.userAnswer = "" := fun h => hg (Or.inr h)
      have := handleSubmit_incorrect_fields now s2 (some r3) hg1 hg2 h3
      rw [this.1]
  · intro s2
    rfl

/-- C5 witness: from the armed state a correct 15-point verdict yields a
30-point award and disarms the flag; the follow-up correct answer is worth
its plain 15 points; an incorrect verdict and a skip leave the armed state
armed. -/
theorem double_points_consumption_witness :
    armedState.doublePointsActive = true
    ∧ (handleSubmit 5000 armedState (some sampleCorrect)).state.score
        = armedState.score + jsOrI sampleCorrect.points 10 * 2
    ∧ (handleSubmit 5000 armedState (some sampleCorrect)).state.doublePointsActive = false
    ∧ (handleSubmit 9000 (handleSubmit 5000 armedState (some sampleCorrect)).state
          (some sampleCorrect)).state.score
        = (handleSubmit 5000 armedState (some sampleCorrect)).state.score
            + jsOrI sampleCorrect.points 10
    ∧ (handleSubmit 5000 armedState (some sampleWrong)).state.doublePointsActive
        = armedState.doublePointsActive
    ∧ (handleSkip armedState).state.doublePointsActive = armedState.doublePointsActive := by
  have h := double_points_consumption 5000 9000 armedState sampleCorrect sampleCorrect
    rfl (by decide) rfl rfl rfl
  exact ⟨rfl, h.1.1, h.1.2, h.2.1, h.2.2.1 armedState sampleWrong rfl, h.2.2.2 armedState⟩

/-- C6: a verification call that throws (network failure) resolves exactly
like an incorrect verdict: streak and combo are reset to 0, score and
coins are untouched, a new puzzle fetch is triggered, and any explicit
incorrect verdict produces the identical state and calls. -/
theorem network_failure_failsafe (now : Nat) (s : GameState)
    (hp : s.puzzle.isNone = false) (ha : ¬ s.userAnswer = "") :
    (handleSubmit now s none).state.streak = 0
    ∧ (handleSubmit now s none).state.combo = 0
    ∧ (handleSubmit now s none).state.score = s.score
    ∧ (handleSubmit now s none).state.coins = s.coins
    ∧ BackendCall.fetchPuzzle ∈ (handleSubmit now s none).calls
    ∧ (∀ r : CheckResponse, r.correct = false →
        (handleSubmit now s (some r)).state = (handleSubmit now s none).state
        ∧ (handleSubmit now s (some r)).calls = (handleSubmit now s none).calls) := by
  have hnet : handleSubmit now s none = handleSubmit now s none := rfl
  obtain ⟨hstate, hcalls⟩ := handleSubmit_incorrect_fields now s none hp ha rfl
  refine ⟨by rw [hstate], by rw [hstate], by rw [hstate], by rw [hstate], ?_, ?_⟩
  · rw [hcalls]
    simp
  · intro r hr
    obtain ⟨hstate2, hcalls2⟩ := handleSubmit_incorrect_fields now s (some r) hp ha hr
    exact ⟨by rw [hstate, hstate2], by rw [hcalls, hcalls2]⟩

/-- C6 witness: submitting from the concrete mid-round state when the
network call throws resets streak and combo and keeps score and coins,
and the explicit wrong verdict lands in the identical state. -/
theorem network_failure_failsafe_witness :
    (handleSubmit 5000 sampleState none).state.streak = 0
    ∧ (handleSubmit 5000 sampleState none).state.score = sampleState.score
    ∧ (handleSubmit 5000 sampleState none).state.coins = sampleState.coins
    ∧ (handleSubmit 5000 sampleState (some sampleWrong)).state
        = (handleSubmit 5000 sampleState none).state := by
  have h := network_failure_failsafe 5000 sampleState rfl (by decide)
  exact ⟨h.1, h.2.2.1, h.2.2.2.1, (h.2.2.2.2.2 sampleWrong rfl).1⟩

/-- C7: Logout teardown is unconditional.  With the re-entry guard clear,
every remote outcome — success, HTTP error, or a thrown call — leaves
persisted storage with no access or refresh credential, returns the router
to the landing view with an empty session username, and the storage and
router results are identical across outcomes (only the toasts differ). -/
theorem logout_teardown_unconditional (endpoint : LogoutEndpoint)
    (outcome : LogoutOutcome) (st : Storage) (r : RouterState) :
    (handleLogoutRequest false endpoint outcome st r).1.accessToken = none
    ∧ (handleLogoutRequest false endpoint outcome st r).1.refreshToken = none
    ∧ (handleLogoutRequest false endpoint outcome st r).2.1.view = ViewState.landing
    ∧ (handleLogoutRequest false endpoint outcome st r).2.1.username = ""
    ∧ (∀ outcome2 : LogoutOutcome,
        (handleLogoutRequest false endpoint outcome2 st r).1
          = (handleLogoutRequest false endpoint outcome st r).1
        ∧ (handleLogoutRequest false endpoint outcome2 st r).2.1
          = (handleLogoutRequest false endpoint outcome st r).2.1) := by
  refine ⟨rfl, rfl, rfl, rfl, ?_⟩
  intro outcome2
  exact ⟨rfl, rfl⟩

/-- C7 witness: a thrown single-device logout from the concrete stored
session still clears the credentials and lands on the landing view. -/
theorem logout_teardown_unconditional_witness :
    (handleLogoutRequest false LogoutEndpoint.logout LogoutOutcome.thrown
        sampleStorage routerInit).1.accessToken = none
    ∧ (handleLogoutRequest false LogoutEndpoint.logout LogoutOutcome.thrown
        sampleStorage routerInit).2.1.view = ViewState.landing := by
  have h := logout_teardown_unconditional LogoutEndpoint.logout LogoutOutcome.thrown
    sampleStorage routerInit
  exact ⟨h.1, h.2.2.1⟩

/-- C8: Freeze idempotence-under-busy.  Invoking the freeze power-up while
the timer is already frozen is a complete no-op: no decrement, no backend
sync, no toast, no bonus.  Invoking it while not frozen with a positive
freeze count decrements the counter by exactly 1, issues one backend sync,
and its pending timeout adds the time bonus exactly once — and a repeated
invocation from the now-frozen state is again a no-op. -/
theorem freeze_idempotent_under_busy (s : GameState) :
    (s.isTimerFrozen = true → useFreeze s = noEmit s)
    ∧ (s.isTimerFrozen = false → 0 < s.powerUps.freeze →
      (useFreeze s).state.powerUps.freeze = s.powerUps.freeze - 1
      ∧ (useFreeze s).state.isTimerFrozen = true
      ∧ (useFreeze s).calls
          = [BackendCall.patchPlayer { freezes := some (s.powerUps.freeze - 1) }]
      ∧ (freezeTimeoutFire (useFreeze s).state).timeLeft = s.timeLeft + 20
      ∧ useFreeze (useFreeze s).state = noEmit (useFreeze s).state) := by
  constructor
  · intro hf
    exact useFreeze_frozen_noop s hf
  · intro hf hc
    have hguard : (decide (s.powerUps.freeze > 0) && !s.isTimerFrozen) = true := by
      rw [hf]
      simp [hc]
    have hu : useFreeze s
        = { state := { s with powerUps := { s.powerUps with freeze := s.powerUps.freeze - 1 },
                              isTimerFrozen := true },
            calls := [BackendCall.patchPlayer { freezes := some (s.powerUps.freeze - 1) }],
            toasts := [{ title := "🧊 Time Frozen!",
                         description := "+10 seconds added to timer!" }] } := by
      unfold useFreeze
      rw [if_pos hguard]
    have hf2 : (useFreeze s).state.isTimerFrozen = true := by rw [hu]
    refine ⟨by rw [hu], by rw [hu], by rw [hu], ?_, useFreeze_frozen_noop _ hf2⟩
    rw [hu]
    rfl

/-- C8 witness: invoking freeze on the already-frozen concrete state is a
no-op, and on the unfrozen one it decrements the counter from 1 to 0. -/
theorem freeze_idempotent_under_busy_witness :
    useFreeze frozenState = noEmit frozenState
    ∧ (useFreeze sampleState).state.powerUps.freeze = sampleState.powerUps.freeze - 1
    ∧ (freezeTimeoutFire (useFreeze sampleState).state).timeLeft = sampleState.timeLeft + 20 := by
  have h := (freeze_idempotent_under_busy sampleState).2 rfl (by decide)
  exact ⟨(freeze_idempotent_under_busy frozenState).1 rfl, h.1, h.2.2.2.1⟩

/-- C9: Coin reward formula.  On every correct verdict the coin balance
increases by exactly `5 + floor(combo / 2)` with the server combo treated
as 0 when absent; with `combo = 3` that is an increase of exactly 6; and
with the double-points flag unarmed and a truthy server `points` value the
score increases by exactly that value. -/
theorem coin_reward_formula (now : Nat) (s : GameState) (r : CheckResponse)
    (hp : s.puzzle.isNone = false) (ha : ¬ s.userAnswer = "")
    (hc : r.correct = true) :
    (handleSubmit now s (some r)).state.coins
        = s.coins + ((5 + (r.combo.getD 0) / 2 : Nat) : Int)
    ∧ (r.combo = some 3 → (handleSubmit now s (some r)).state.coins = s.coins + 6)
    ∧ (s.doublePointsActive = false → ∀ p : Int, r.points = some p → ¬ p = 0 →
        (handleSubmit now s (some r)).state.score = s.score + p) := by
  obtain ⟨hsc, hco, _, _, _, _, _, _⟩ := handleSubmit_correct_fields now s r hp ha hc
  have hgetd : jsOrN r.combo 0 = r.combo.getD 0 := by
    cases r.combo with
    | none => rfl
    | some c =>
      by_cases hz : c = 0
      · rw [hz]
        rfl
      · simp [jsOrN, hz]
  refine ⟨by rw [hco, hgetd], ?_, ?_⟩
  · intro h3
    rw [hco, hgetd, h3]
    rfl
  · intro hdp p hpts hpz
    rw [hsc, hdp, hpts]
    simp [jsOrI, hpz]

/-- C9 witness: the concrete correct verdict with `combo = 3` raises the
40-coin balance to 46, and with the flag unarmed its 15 reported points
raise the score from 30 to 45. -/
theorem coin_reward_formula_witness :
    (handleSubmit 5000 sampleState (some sampleCorrect)).state.coins = sampleState.coins + 6
    ∧ (handleSubmit 5000 sampleState (some sampleCorrect)).state.score = sampleState.score + 15 := by
  have h := coin_reward_formula 5000 sampleState sampleCorrect rfl (by decide) rfl
  exact ⟨h.2.1 rfl, h.2.2 rfl 15 rfl (by decide)⟩

/-- C10: implicit freeze-bonus magnitude.  Applying the freeze power-up
(count positive, timer not frozen) and letting its 100 ms timeout fire
increases the remaining time by exactly 20 seconds, while the toast shown
to the user claims "+10 seconds added to timer!"; coins, hint count and
super-banana count are unchanged. -/
theorem freeze_bonus_magnitude (s : GameState)
    (h1 : 0 < s.powerUps.freeze) (h2 : s.isTimerFrozen = false) :
    (freezeTimeoutFire (useFreeze s).state).timeLeft = s.timeLeft + 20
    ∧ (useFreeze s).toasts
        = [{ title := "🧊 Time Frozen!", description := "+10 seconds added to timer!" }]
    ∧ (useFreeze s).state.coins = s.coins
    ∧ (useFreeze s).state.powerUps.hint = s.powerUps.hint
    ∧ (useFreeze s).state.powerUps.superBanana = s.powerUps.superBanana
    ∧ (freezeTimeoutFire (useFreeze s).state).coins = s.coins := by
  have hguard : (decide (s.powerUps.freeze > 0) && !s.isTimerFrozen) = true := by
    rw [h2]
    simp [h1]
  have hu : useFreeze s
      = { state := { s with powerUps := { s.powerUps with freeze := s.powerUps.freeze - 1 },
                            isTimerFrozen := true },
          calls := [BackendCall.patchPlayer { freezes := some (s.powerUps.freeze - 1) }],
          toasts := [{ title := "🧊 Time Frozen!",
                       description := "+10 seconds added to timer!" }] } := by
    unfold useFreeze
    rw [if_pos hguard]
  refine ⟨?_, by rw [hu], by rw [hu], by rw [hu], by rw [hu], ?_⟩
  · rw [hu]
    rfl
  · rw [hu]
    rfl

/-- C10 witness: on the concrete unfrozen state the fired freeze timeout
moves the clock from 12 to 32 while the toast claims +10 seconds. -/
theorem freeze_bonus_magnitude_witness :
    (freezeTimeoutFire (useFreeze sampleState).state).timeLeft = sampleState.timeLeft + 20
    ∧ (useFreeze sampleState).toasts
        = [{ title := "🧊 Time Frozen!", description := "+10 seconds added to timer!" }]
    ∧ (useFreeze sampleState).state.coins = sampleState.coins := by
  have h := freeze_bonus_magnitude sampleState (by decide) rfl
  exact ⟨h.1, h.2.1, h.2.2.1⟩

end BananaBrain
